import Mathlib

/-!
# Verification development for two win10 platform adapters

* `xbmc/platform/win10/input/RemoteControlXbox.cpp` : the remote-control adapter
  (namespace `RemoteControlXbox`);
* `xbmc/filesystem/win10/WinLibraryFile.cpp` : the library file adapter
  (namespace `WinLibraryFile`).

Host services (storage, clock, event arguments) are values handed to the
embedded functions; machine integers are naturals reduced modulo their width.
-/

namespace RemoteControlXbox

/-! ## Remote control adapter: data model -/

/-- Enumerators of `Windows::System::VirtualKey` named by the source; every
other enumerator of the host type is `Other` with its numeric value. -/
inductive VirtualKey where
  | None
  | GamepadDPadLeft
  | GamepadDPadUp
  | GamepadDPadRight
  | GamepadDPadDown
  | GamepadA
  | GamepadB
  | GamepadX
  | GamepadY
  | Clear
  | PageDown
  | PageUp
  | Number0
  | Number1
  | Number2
  | Number3
  | Number4
  | Number5
  | Number6
  | Number7
  | Number8
  | Number9
  | Decimal
  | GamepadView
  | GamepadMenu
  | Other (code : Nat)
  deriving DecidableEq, Repr

/-- The host type `SystemMediaTransportControlsButton`: its ten enumerators,
each of which the source names. -/
inductive SystemMediaTransportControlsButton where
  | ChannelDown
  | ChannelUp
  | FastForward
  | Rewind
  | Next
  | Previous
  | Pause
  | Play
  | Stop
  | Record
  deriving DecidableEq, Repr

/-- The host type `CoreAcceleratorKeyEventType`. -/
inductive CoreAcceleratorKeyEventType where
  | Character
  | DeadCharacter
  | KeyDown
  | KeyUp
  | SystemCharacter
  | SystemDeadCharacter
  | SystemKeyDown
  | SystemKeyUp
  | UnicodeCharacter
  deriving DecidableEq, Repr

/-- The `XINPUT_IR_REMOTE_*` constants used by the two translation tables.
They are defined in `input/remote/IRRemote.h`, which is not among the sources,
so the table is a parameter of the embedding. -/
structure IRRemoteCodes where
  XINPUT_IR_REMOTE_LEFT : Nat
  XINPUT_IR_REMOTE_UP : Nat
  XINPUT_IR_REMOTE_RIGHT : Nat
  XINPUT_IR_REMOTE_DOWN : Nat
  XINPUT_IR_REMOTE_SELECT : Nat
  XINPUT_IR_REMOTE_BACK : Nat
  XINPUT_IR_REMOTE_CONTENTS_MENU : Nat
  XINPUT_IR_REMOTE_INFO : Nat
  XINPUT_IR_REMOTE_CLEAR : Nat
  XINPUT_IR_REMOTE_CHANNEL_MINUS : Nat
  XINPUT_IR_REMOTE_CHANNEL_PLUS : Nat
  XINPUT_IR_REMOTE_0 : Nat
  XINPUT_IR_REMOTE_1 : Nat
  XINPUT_IR_REMOTE_2 : Nat
  XINPUT_IR_REMOTE_3 : Nat
  XINPUT_IR_REMOTE_4 : Nat
  XINPUT_IR_REMOTE_5 : Nat
  XINPUT_IR_REMOTE_6 : Nat
  XINPUT_IR_REMOTE_7 : Nat
  XINPUT_IR_REMOTE_8 : Nat
  XINPUT_IR_REMOTE_9 : Nat
  XINPUT_IR_REMOTE_STAR : Nat
  XINPUT_IR_REMOTE_DISPLAY : Nat
  XINPUT_IR_REMOTE_MENU : Nat
  XINPUT_IR_REMOTE_FORWARD : Nat
  XINPUT_IR_REMOTE_REVERSE : Nat
  XINPUT_IR_REMOTE_SKIP_PLUS : Nat
  XINPUT_IR_REMOTE_SKIP_MINUS : Nat
  XINPUT_IR_REMOTE_PAUSE : Nat
  XINPUT_IR_REMOTE_PLAY : Nat
  XINPUT_IR_REMOTE_STOP : Nat
  XINPUT_IR_REMOTE_RECORD : Nat

/-- The member variables of `CRemoteControlXbox` that the handlers touch.
`m_button` and `m_lastButton` are 16-bit (the width `GetButton` returns),
`m_holdTime` and `m_firstClickTime` are 32-bit (the width `GetHoldTimeMs`
returns). -/
structure CRemoteControlXbox where
  m_button : Nat
  m_lastButton : Nat
  m_bInitialized : Bool
  m_holdTime : Nat
  m_firstClickTime : Nat
  m_lastKey : VirtualKey
  deriving DecidableEq, Repr

/-- The fields of `AcceleratorKeyEventArgs` read or written by the adapter. -/
structure AcceleratorKeyEventArgs where
  DeviceId : String
  VirtualKey : VirtualKey
  EventType : CoreAcceleratorKeyEventType
  Handled : Bool
  deriving DecidableEq, Repr

/-- The macro `XBOX_REMOTE_DEVICE_ID`. -/
def XBOX_REMOTE_DEVICE_ID : String := "GIP:0000F50000000001"

/-- Reduction of a value to an unsigned 16-bit integer. -/
def toUInt16 (n : Nat) : Nat := n % 65536

/-- Reduction of a value to an unsigned 32-bit integer. -/
def toUInt32 (n : Nat) : Nat := n % 4294967296

/-- Unsigned 32-bit subtraction `a - b`. -/
def sub32 (a b : Nat) : Nat := (toUInt32 a + 4294967296 - toUInt32 b) % 4294967296

/-! ## Remote control adapter: operations -/

/-- The constructor `CRemoteControlXbox::CRemoteControlXbox`. -/
def new : CRemoteControlXbox :=
  { m_button := 0, m_lastButton := 0, m_bInitialized := false, m_holdTime := 0,
    m_firstClickTime := 0, m_lastKey := VirtualKey.None }

/-- The predicate `CRemoteControlXbox::IsRemoteControlId`. -/
def IsRemoteControlId (deviceId : String) : Bool :=
  decide (deviceId = XBOX_REMOTE_DEVICE_ID)

/-- The method `CRemoteControlXbox::Reset`. -/
def Reset (s : CRemoteControlXbox) : CRemoteControlXbox :=
  { s with m_button := 0, m_holdTime := 0 }

/-- The method `CRemoteControlXbox::Update`. -/
def Update (s : CRemoteControlXbox) : CRemoteControlXbox :=
  if s.m_lastButton ≠ 0 then
    { s with m_button := s.m_lastButton, m_lastButton := 0 }
  else s

/-- The method `CRemoteControlXbox::GetButton`. -/
def GetButton (s : CRemoteControlXbox) : Nat := s.m_button

/-- The method `CRemoteControlXbox::GetHoldTimeMs`. -/
def GetHoldTimeMs (s : CRemoteControlXbox) : Nat := s.m_holdTime

/-- The table `CRemoteControlXbox::TranslateVirtualKey`. -/
def TranslateVirtualKey (c : IRRemoteCodes) (vk : VirtualKey) : Nat :=
  match vk with
  | .GamepadDPadLeft => c.XINPUT_IR_REMOTE_LEFT
  | .GamepadDPadUp => c.XINPUT_IR_REMOTE_UP
  | .GamepadDPadRight => c.XINPUT_IR_REMOTE_RIGHT
  | .GamepadDPadDown => c.XINPUT_IR_REMOTE_DOWN
  | .GamepadA => c.XINPUT_IR_REMOTE_SELECT
  | .GamepadB => c.XINPUT_IR_REMOTE_BACK
  | .GamepadX => c.XINPUT_IR_REMOTE_CONTENTS_MENU
  | .GamepadY => c.XINPUT_IR_REMOTE_INFO
  | .Clear => c.XINPUT_IR_REMOTE_CLEAR
  | .PageDown => c.XINPUT_IR_REMOTE_CHANNEL_MINUS
  | .PageUp => c.XINPUT_IR_REMOTE_CHANNEL_PLUS
  | .Number0 => c.XINPUT_IR_REMOTE_0
  | .Number1 => c.XINPUT_IR_REMOTE_1
  | .Number2 => c.XINPUT_IR_REMOTE_2
  | .Number3 => c.XINPUT_IR_REMOTE_3
  | .Number4 => c.XINPUT_IR_REMOTE_4
  | .Number5 => c.XINPUT_IR_REMOTE_5
  | .Number6 => c.XINPUT_IR_REMOTE_6
  | .Number7 => c.XINPUT_IR_REMOTE_7
  | .Number8 => c.XINPUT_IR_REMOTE_8
  | .Number9 => c.XINPUT_IR_REMOTE_9
  | .Decimal => c.XINPUT_IR_REMOTE_STAR
  | .GamepadView => c.XINPUT_IR_REMOTE_DISPLAY
  | .GamepadMenu => c.XINPUT_IR_REMOTE_MENU
  | _ => 0

/-- The table `CRemoteControlXbox::TranslateMediaKey`. The case
`default: return 0` of the source is reached by no enumerator of the host
type, so it has no branch here. -/
def TranslateMediaKey (c : IRRemoteCodes) (mk : SystemMediaTransportControlsButton) : Nat :=
  match mk with
  | .ChannelDown => c.XINPUT_IR_REMOTE_CHANNEL_MINUS
  | .ChannelUp => c.XINPUT_IR_REMOTE_CHANNEL_PLUS
  | .FastForward => c.XINPUT_IR_REMOTE_FORWARD
  | .Rewind => c.XINPUT_IR_REMOTE_REVERSE
  | .Next => c.XINPUT_IR_REMOTE_SKIP_PLUS
  | .Previous => c.XINPUT_IR_REMOTE_SKIP_MINUS
  | .Pause => c.XINPUT_IR_REMOTE_PAUSE
  | .Play => c.XINPUT_IR_REMOTE_PLAY
  | .Stop => c.XINPUT_IR_REMOTE_STOP
  | .Record => c.XINPUT_IR_REMOTE_RECORD

/-- The ten constants of the media table are button codes, none of them the
value 0 that stands for no button. -/
def MediaCodesNonZero (c : IRRemoteCodes) : Prop :=
  c.XINPUT_IR_REMOTE_CHANNEL_MINUS ≠ 0 ∧ c.XINPUT_IR_REMOTE_CHANNEL_PLUS ≠ 0 ∧
  c.XINPUT_IR_REMOTE_FORWARD ≠ 0 ∧ c.XINPUT_IR_REMOTE_REVERSE ≠ 0 ∧
  c.XINPUT_IR_REMOTE_SKIP_PLUS ≠ 0 ∧ c.XINPUT_IR_REMOTE_SKIP_MINUS ≠ 0 ∧
  c.XINPUT_IR_REMOTE_PAUSE ≠ 0 ∧ c.XINPUT_IR_REMOTE_PLAY ≠ 0 ∧
  c.XINPUT_IR_REMOTE_STOP ≠ 0 ∧ c.XINPUT_IR_REMOTE_RECORD ≠ 0

/-- The handler `CRemoteControlXbox::HandleAcceleratorKey`. `now` is the value
`XbmcThreads::SystemClockMillis()` returns during the call. The result is the
adapter state and the event arguments after the call. -/
def HandleAcceleratorKey (c : IRRemoteCodes) (now : Nat) (s : CRemoteControlXbox)
    (args : AcceleratorKeyEventArgs) : CRemoteControlXbox × AcceleratorKeyEventArgs :=
  let button := TranslateVirtualKey c args.VirtualKey
  if button = 0 then (s, args)
  else
    let s1 : CRemoteControlXbox :=
      match args.EventType with
      | .KeyDown | .SystemKeyDown =>
        let s2 : CRemoteControlXbox :=
          if s.m_lastKey ≠ args.VirtualKey then
            { s with m_lastKey := args.VirtualKey, m_firstClickTime := toUInt32 now,
                     m_holdTime := 0 }
          else { s with m_holdTime := sub32 now s.m_firstClickTime }
        { s2 with m_lastButton := toUInt16 button }
      | .KeyUp | .SystemKeyUp =>
        let s2 : CRemoteControlXbox :=
          if s.m_lastKey = args.VirtualKey then
            { s with m_holdTime := sub32 now s.m_firstClickTime }
          else { s with m_holdTime := 0 }
        { s2 with m_lastKey := VirtualKey.None }
      | _ => s
    (s1, { args with Handled := true })

/-- The handler `CRemoteControlXbox::HandleMediaButton`. -/
def HandleMediaButton (c : IRRemoteCodes) (s : CRemoteControlXbox)
    (button : SystemMediaTransportControlsButton) : CRemoteControlXbox :=
  { s with m_lastButton := toUInt16 (TranslateMediaKey c button) }

/-- The callback that `CRemoteControlXbox::Initialize` subscribes to
`AcceleratorKeyActivated`: the handler runs only for the controller's device
identifier. -/
def AcceleratorKeyActivated (c : IRRemoteCodes) (now : Nat) (s : CRemoteControlXbox)
    (args : AcceleratorKeyEventArgs) : CRemoteControlXbox × AcceleratorKeyEventArgs :=
  if IsRemoteControlId args.DeviceId then HandleAcceleratorKey c now s args
  else (s, args)

/-- A code table on which the theorems below are exercised at concrete
inputs; the theorems themselves hold for every table. -/
def sampleCodes : IRRemoteCodes :=
  { XINPUT_IR_REMOTE_LEFT := 169, XINPUT_IR_REMOTE_UP := 166, XINPUT_IR_REMOTE_RIGHT := 168,
    XINPUT_IR_REMOTE_DOWN := 167, XINPUT_IR_REMOTE_SELECT := 11, XINPUT_IR_REMOTE_BACK := 216,
    XINPUT_IR_REMOTE_CONTENTS_MENU := 246, XINPUT_IR_REMOTE_INFO := 195,
    XINPUT_IR_REMOTE_CLEAR := 249, XINPUT_IR_REMOTE_CHANNEL_MINUS := 147,
    XINPUT_IR_REMOTE_CHANNEL_PLUS := 148, XINPUT_IR_REMOTE_0 := 207, XINPUT_IR_REMOTE_1 := 206,
    XINPUT_IR_REMOTE_2 := 205, XINPUT_IR_REMOTE_3 := 204, XINPUT_IR_REMOTE_4 := 203,
    XINPUT_IR_REMOTE_5 := 202, XINPUT_IR_REMOTE_6 := 201, XINPUT_IR_REMOTE_7 := 200,
    XINPUT_IR_REMOTE_8 := 199, XINPUT_IR_REMOTE_9 := 198, XINPUT_IR_REMOTE_STAR := 40,
    XINPUT_IR_REMOTE_DISPLAY := 213, XINPUT_IR_REMOTE_MENU := 247,
    XINPUT_IR_REMOTE_FORWARD := 227, XINPUT_IR_REMOTE_REVERSE := 226,
    XINPUT_IR_REMOTE_SKIP_PLUS := 223, XINPUT_IR_REMOTE_SKIP_MINUS := 221,
    XINPUT_IR_REMOTE_PAUSE := 230, XINPUT_IR_REMOTE_PLAY := 234, XINPUT_IR_REMOTE_STOP := 224,
    XINPUT_IR_REMOTE_RECORD := 232 }

end RemoteControlXbox

namespace WinLibraryFile

/-! ## Library file adapter: data model -/

/-- A wide string (`std::wstring`): its sequence of characters. -/
abbrev WString := List Char

/-- What the adapter reads from a `CURL` (class not among the sources): the
results of its accessors `GetProtocol`, `GetHostName`, `GetFileName`, `Get`,
`GetWithoutFilename` and `GetFileNameWithoutPath`. -/
structure CURL where
  GetProtocol : String
  GetHostName : String
  GetFileName : String
  Get : String
  GetWithoutFilename : String
  GetFileNameWithoutPath : String
  deriving DecidableEq, Repr

/-- Handle of a host `StorageFile`. -/
structure StorageFile where
  id : Nat
  deriving DecidableEq, Repr

/-- Handle of a host `StorageFolder`. -/
structure StorageFolder where
  id : Nat
  deriving DecidableEq, Repr

/-- A host storage item: what `TryGetItemAsync` yields and `IsOfType` tells apart. -/
inductive IStorageItem where
  | File (f : StorageFile)
  | Folder (d : StorageFolder)
  deriving DecidableEq, Repr

/-- The host type `FileAccessMode`. -/
inductive FileAccessMode where
  | Read
  | ReadWrite
  deriving DecidableEq, Repr

/-- Handle of a host `IRandomAccessStream`. -/
structure IRandomAccessStream where
  id : Nat
  deriving DecidableEq, Repr

/-- What a call can raise: a `Platform::Exception` (the only kind the source
catches) or the `std::out_of_range` of the standard string class. -/
inductive Raised where
  | PlatformException
  | out_of_range
  deriving DecidableEq, Repr

/-- Result of a call that either returns a value or raises. -/
inductive Outcome (α : Type) where
  | ok (a : α)
  | raised (e : Raised)
  deriving DecidableEq, Repr

/-- One `AccessListEntry` of a host access list. -/
structure AccessListEntry where
  Token : String
  Metadata : String
  deriving DecidableEq, Repr

/-- A host `IStorageItemAccessList`: its `Entries` view and what
`Wait(list->GetFileAsync(token))` yields for each token. -/
structure IStorageItemAccessList where
  Entries : List AccessListEntry
  GetFileAsync : String → Outcome (Option StorageFile)

/-- The property values `RetrievePropertiesAsync` hands back; an absent value is
a null lookup result. Times are `UniversalTime` ticks. -/
structure RequestedProps where
  DateAccessed : Option Int
  DateCreated : Option Int
  DateModified : Option Int
  Size : Option Nat
  deriving DecidableEq, Repr

/-- A mutating host call issued through `Wait`. -/
inductive HostCall where
  | MoveAndReplaceAsync (file : StorageFile) (fileToReplace : StorageFile)
  | MoveAsync (file : StorageFile) (destinationFolder : StorageFolder)
  | DeleteAsync (file : StorageFile)
  | WriteAsync (stream : IRandomAccessStream) (bytes : List Nat)
  deriving DecidableEq, Repr

/-- The collaborators of the adapter that are not among the sources
(`CWinLibraryDirectory`, `URIUtils`, `CWIN32Util`) and the host storage
services, each taken as the function the source calls. `FixSlashesAndDups`
is `ToW(URIUtils::FixSlashesAndDups(·, backslash))`; `GetFolder` is
`CWinLibraryDirectory::GetFolder(CURL(·))`; `Completes` tells whether `Wait`
on a mutating call returns (`ok`) or raises; `outside` is the character an
`operator[]` beyond the end of a string happens to read; `BufferLength` is the
`Length` property of a `Buffer` just created with the given capacity. -/
structure Host where
  IsValid : CURL → Bool
  GetRootFolder : CURL → StorageFolder
  GetFolder : String → Option StorageFolder
  FixSlashesAndDups : String → WString
  HasSlashAtEnd : String → Bool
  fileTimeToTimeT : Int → Int
  TryGetItemAsync : StorageFolder → WString → Outcome (Option IStorageItem)
  CreateFileAsync : StorageFolder → String → Outcome (Option StorageFile)
  OpenAsync : StorageFile → FileAccessMode → Outcome (Option IRandomAccessStream)
  RetrievePropertiesAsync : StorageFile → Outcome RequestedProps
  FutureAccessList : IStorageItemAccessList
  MostRecentlyUsedList : IStorageItemAccessList
  Completes : HostCall → Outcome Unit
  outside : Nat → Char
  BufferLength : Nat → Nat

/-- The member variables of `CWinLibraryFile`. -/
structure CWinLibraryFile where
  m_allowWrite : Bool
  m_sFile : Option StorageFile
  m_fileStream : Option IRandomAccessStream
  deriving DecidableEq, Repr

/-- The fields of `struct __stat64`. -/
structure Stat64 where
  st_dev : Nat
  st_ino : Nat
  st_mode : Nat
  st_nlink : Nat
  st_uid : Nat
  st_gid : Nat
  st_rdev : Nat
  st_size : Int
  st_atime : Int
  st_mtime : Int
  st_ctime : Int
  deriving DecidableEq, Repr

/-! ## Library file adapter: the standard string operations GetFile uses -/

/-- The constant `std::wstring::npos` (64-bit `size_t`). -/
def npos : Nat := 18446744073709551615

/-- Search of `std::wstring::find(ch)` from position `i` on. -/
def findFrom (c : Char) : WString → Nat → Nat
  | [], _ => npos
  | x :: xs, i => if x = c then i else findFrom c xs (i + 1)

/-- The member `std::wstring::find(ch)`: position of the first occurrence, or `npos`. -/
def find (w : WString) (c : Char) : Nat := findFrom c w 0

/-- The member `std::wstring::operator[]`: the character read and whether the
position lies outside the string (position `size()` is the terminator). -/
def charAt (outside : Nat → Char) (w : WString) (i : Nat) : Char × Bool :=
  match w[i]? with
  | some c => (c, false)
  | none => if i = w.length then (Char.ofNat 0, false) else (outside i, true)

/-- The member `std::wstring::insert(index, 1, ch)`: raises `std::out_of_range`
when `index > size()`. -/
def insert (w : WString) (index : Nat) (c : Char) : Outcome WString :=
  if index > w.length then .raised .out_of_range
  else .ok (w.take index ++ c :: w.drop index)

/-- What the drive-letter fix-up did: the position of a read outside the
string, if it made one, and the path it produced or the exception it raised. -/
structure FixupTrace where
  oobRead : Option Nat
  result : Outcome WString
  deriving DecidableEq, Repr

/-- The body of the `removable` branch of `CWinLibraryFile::GetFile`
(`index = wpath.find(backslash)`; `if (index > 0 && wpath[index - 1] != colon)
wpath.insert(index, 1, colon)`). -/
def driveLetterFixup (outside : Nat → Char) (wpath : WString) : FixupTrace :=
  let index := find wpath '\\'
  if index > 0 then
    let r := charAt outside wpath (index - 1)
    { oobRead := if r.2 then some (index - 1) else none,
      result := if r.1 ≠ ':' then insert wpath index ':' else .ok wpath }
  else { oobRead := none, result := .ok wpath }

/-- The path `CWinLibraryFile::GetFile` hands to `TryGetItemAsync` for a
library URL: the normalised file name, fixed up when the root is `removable`. -/
def lookupPath (h : Host) (url : CURL) : FixupTrace :=
  let wpath := h.FixSlashesAndDups url.GetFileName
  if url.GetHostName = "removable" then driveLetterFixup h.outside wpath
  else { oobRead := none, result := .ok wpath }

/-! ## Library file adapter: operations -/

/-- The loop of `CWinLibraryFile::GetTokenFromList` over the entries view. -/
def scanEntries (itemKey : String) : List AccessListEntry → Option String
  | [] => none
  | listEntry :: rest =>
    if listEntry.Metadata = itemKey then some listEntry.Token else scanEntries itemKey rest

/-- The function `CWinLibraryFile::GetTokenFromList`; `none` is a null string. -/
def GetTokenFromList (url : CURL) (list : IStorageItemAccessList) : Option String :=
  if list.Entries.length = 0 then none
  else scanEntries url.Get list.Entries

/-- The test `!token || token->IsEmpty()`. -/
def tokenMissing (token : Option String) : Bool :=
  match token with
  | none => true
  | some t => decide (t = "")

/-- The function `CWinLibraryFile::IsInList`. -/
def IsInList (url : CURL) (list : IStorageItemAccessList) : Bool :=
  !tokenMissing (GetTokenFromList url list)

/-- The function `CWinLibraryFile::GetFile`. The outer variable `list` is
bound to the future-access list; the declaration inside the block that
searches the recently-used list introduces a second variable of the same
name, so the call `list->GetFileAsync(token)` after the block is made on the
future-access list. -/
def GetFile (h : Host) (url : CURL) : Outcome (Option StorageFile) :=
  if h.IsValid url then
    let rootFolder := h.GetRootFolder url
    match (lookupPath h url).result with
    | .raised e => .raised e
    | .ok wpath =>
      match h.TryGetItemAsync rootFolder wpath with
      | .ok (some (.File f)) => .ok (some f)
      | .ok _ => .ok none
      | .raised .PlatformException => .ok none
      | .raised e => .raised e
  else if url.GetProtocol = "file" ∨ url.GetProtocol = "" then
    let list := h.FutureAccessList
    let token := GetTokenFromList url list
    let token :=
      if tokenMissing token then
        let list := h.MostRecentlyUsedList
        GetTokenFromList url list
      else token
    match token with
    | some t => if t ≠ "" then list.GetFileAsync t else .ok none
    | none => .ok none
  else .ok none

/-- The `try` block of the library branch of `CWinLibraryFile::GetFile` with
its handler: the lookup of `wpath` under `rootFolder`, of which only an item of
file type is returned; a `Platform::Exception` is answered with null. -/
def tryGetFile (h : Host) (rootFolder : StorageFolder) (wpath : WString) :
    Outcome (Option StorageFile) :=
  match h.TryGetItemAsync rootFolder wpath with
  | .ok (some (.File f)) => .ok (some f)
  | .ok _ => .ok none
  | .raised .PlatformException => .ok none
  | .raised e => .raised e

/-- The function `CWinLibraryFile::IsValid`. -/
def IsValid (h : Host) (url : CURL) : Bool :=
  h.IsValid url && !(url.GetFileName = "") && !h.HasSlashAtEnd url.GetFileName

/-- The constructor `CWinLibraryFile::CWinLibraryFile`. -/
def new : CWinLibraryFile :=
  { m_allowWrite := false, m_sFile := none, m_fileStream := none }

/-- The method `CWinLibraryFile::Close`. -/
def Close (s : CWinLibraryFile) : CWinLibraryFile :=
  let s1 := if s.m_fileStream ≠ none then { s with m_fileStream := none } else s
  if s1.m_sFile ≠ none then { s1 with m_sFile := none } else s1

/-- The part of `CWinLibraryFile::OpenIntenal` after a file object has or has
not been stored: `if (m_sFile) m_fileStream = Wait(m_sFile->OpenAsync(mode))`,
then `return m_fileStream != nullptr`; a raised `Platform::Exception` is
caught and answered with `false`. -/
def openStream (h : Host) (mode : FileAccessMode) (s : CWinLibraryFile) :
    Outcome Bool × CWinLibraryFile :=
  match s.m_sFile with
  | some f =>
    match h.OpenAsync f mode with
    | .ok stream => (.ok (stream ≠ none), { s with m_fileStream := stream })
    | .raised .PlatformException => (.ok false, s)
    | .raised e => (.raised e, s)
  | none => (.ok (s.m_fileStream ≠ none), s)

/-- The method `CWinLibraryFile::OpenIntenal`: the value returned (or the
exception that leaves the method) and the adapter afterwards. -/
def OpenIntenal (h : Host) (url : CURL) (mode : FileAccessMode) (s : CWinLibraryFile) :
    Outcome Bool × CWinLibraryFile :=
  match GetFile h url with
  | .raised .PlatformException => (.ok false, s)
  | .raised e => (.raised e, s)
  | .ok (some exitingFile) => openStream h mode { s with m_sFile := some exitingFile }
  | .ok none =>
    if mode = FileAccessMode.ReadWrite then
      match h.GetFolder url.GetWithoutFilename with
      | some folder =>
        match h.CreateFileAsync folder url.GetFileNameWithoutPath with
        | .ok (some newFile) => openStream h mode { s with m_sFile := some newFile }
        | .ok none => openStream h mode s
        | .raised .PlatformException => (.ok false, s)
        | .raised e => (.raised e, s)
      | none => openStream h mode s
    else openStream h mode s

/-- The method `CWinLibraryFile::Open`. -/
def Open (h : Host) (url : CURL) (s : CWinLibraryFile) : Outcome Bool × CWinLibraryFile :=
  OpenIntenal h url FileAccessMode.Read s

/-- The method `CWinLibraryFile::OpenForWrite`. -/
def OpenForWrite (h : Host) (url : CURL) (_bOverWrite : Bool) (s : CWinLibraryFile) :
    Outcome Bool × CWinLibraryFile :=
  OpenIntenal h url FileAccessMode.ReadWrite s

/-- The method `CWinLibraryFile::Write`: the value returned and the host
write it issued, if any. `lpBuf` is the caller's buffer, of which
`uiBufSize` bytes are copied. -/
def Write (h : Host) (s : CWinLibraryFile) (lpBuf : List Nat) (uiBufSize : Nat) :
    Outcome Int × List HostCall :=
  match s.m_fileStream with
  | none => (.ok (-1), [])
  | some stream =>
    if !s.m_allowWrite then (.ok (-1), [])
    else
      let call := HostCall.WriteAsync stream (lpBuf.take uiBufSize)
      match h.Completes call with
      | .ok _ => (.ok (h.BufferLength uiBufSize : Int), [call])
      | .raised e => (.raised e, [call])

/-- The function `CWinLibraryFile::Exists`. -/
def Exists (h : Host) (url : CURL) : Outcome Bool :=
  match GetFile h url with
  | .ok file => .ok (file ≠ none)
  | .raised e => .raised e

/-- The function `CWinLibraryFile::Delete`. -/
def Delete (h : Host) (url : CURL) : Outcome Bool × List HostCall :=
  match GetFile h url with
  | .raised e => (.raised e, [])
  | .ok none => (.ok false, [])
  | .ok (some file) =>
    match h.Completes (.DeleteAsync file) with
    | .ok _ => (.ok true, [.DeleteAsync file])
    | .raised e => (.raised e, [.DeleteAsync file])

/-- The function `CWinLibraryFile::Rename`: the value returned (or the
exception that leaves it) and the host calls it issued. -/
def Rename (h : Host) (urlCurrentName urlNewName : CURL) : Outcome Bool × List HostCall :=
  if !IsValid h urlNewName then (.ok false, [])
  else
    match GetFile h urlCurrentName with
    | .raised e => (.raised e, [])
    | .ok none => (.ok false, [])
    | .ok (some currFile) =>
      match GetFile h urlNewName with
      | .raised e => (.raised e, [])
      | .ok (some destFile) =>
        match h.Completes (.MoveAndReplaceAsync currFile destFile) with
        | .ok _ => (.ok true, [.MoveAndReplaceAsync currFile destFile])
        | .raised e => (.raised e, [.MoveAndReplaceAsync currFile destFile])
      | .ok none =>
        match h.GetFolder urlNewName.GetWithoutFilename with
        | some destFolder =>
          match h.Completes (.MoveAsync currFile destFolder) with
          | .ok _ => (.ok true, [.MoveAsync currFile destFolder])
          | .raised e => (.raised e, [.MoveAsync currFile destFolder])
        | none => (.ok false, [])

/-- The constant `_S_IREAD` of the C runtime. -/
def _S_IREAD : Nat := 0x0100

/-- The constant `_S_IWRITE` of the C runtime. -/
def _S_IWRITE : Nat := 0x0080

/-- The constant `_S_IEXEC` of the C runtime. -/
def _S_IEXEC : Nat := 0x0040

/-- Conversion of an unsigned 64-bit value to the signed 64-bit `st_size`. -/
def toInt64 (n : Nat) : Int :=
  if n % 18446744073709551616 < 9223372036854775808 then (n % 18446744073709551616 : Nat)
  else ((n % 18446744073709551616 : Nat) : Int) - 18446744073709551616

/-- The function `CWinLibraryFile::Stat(StorageFile^, struct __stat64*)`: the
value returned (or the exception that leaves the function) and the record
afterwards. A null pointer is `none`. `Stat` has no handler around
`Wait(file->Properties->RetrievePropertiesAsync(propertyList))`: when the
request raises, the exception leaves `Stat` with the record as the three
assignments before the request left it. -/
def Stat (h : Host) (file : Option StorageFile) (statData : Option Stat64) :
    Outcome Int × Option Stat64 :=
  match statData with
  | none => (.ok (-1), none)
  | some sd =>
    match file with
    | none => (.ok (-1), some sd)
    | some f =>
      let sd := { sd with st_gid := 0 }
      let sd := { sd with st_uid := 0 }
      let sd := { sd with st_ino := 0 }
      match h.RetrievePropertiesAsync f with
      | .raised e => (.raised e, some sd)
      | .ok requestedProps =>
        let sd := match requestedProps.DateAccessed with
          | some t => { sd with st_atime := h.fileTimeToTimeT t }
          | none => sd
        let sd := match requestedProps.DateCreated with
          | some t => { sd with st_ctime := h.fileTimeToTimeT t }
          | none => sd
        let sd := match requestedProps.DateModified with
          | some t => { sd with st_mtime := h.fileTimeToTimeT t }
          | none => sd
        let sd := match requestedProps.Size with
          | some n => { sd with st_size := toInt64 n }
          | none => sd
        let sd := { sd with st_dev := 0 }
        let sd := { sd with st_rdev := sd.st_dev }
        let sd := { sd with st_nlink := 1 }
        let sd := { sd with st_mode := _S_IREAD }
        let sd := { sd with st_mode :=
          (sd.st_mode ||| ((sd.st_mode &&& (_S_IREAD ||| _S_IWRITE ||| _S_IEXEC)) >>> 3)) % 65536 }
        let sd := { sd with st_mode :=
          (sd.st_mode ||| ((sd.st_mode &&& (_S_IREAD ||| _S_IWRITE ||| _S_IEXEC)) >>> 6)) % 65536 }
        (.ok 0, some sd)

/-- The method `CWinLibraryFile::Stat(struct __stat64*)`. -/
def StatOpen (h : Host) (s : CWinLibraryFile) (statData : Option Stat64) :
    Outcome Int × Option Stat64 :=
  Stat h s.m_sFile statData

/-! ## Library file adapter: a concrete host for evaluating the operations -/

/-- Modelled from the spec: `URIUtils::FixSlashesAndDups` is not among the
sources; the spec has path separators normalised, so every run of slashes and
backslashes becomes one `slashCharacter`. `prev` tells that the character
before was a separator. -/
def normalizeSeparators (slashCharacter : Char) : Bool → List Char → List Char
  | _, [] => []
  | prev, c :: cs =>
    if c = '\\' ∨ c = '/' then
      if prev then normalizeSeparators slashCharacter true cs
      else slashCharacter :: normalizeSeparators slashCharacter true cs
    else c :: normalizeSeparators slashCharacter false cs

/-- The music library folder of `sampleHost`. -/
def musicFolder : StorageFolder := ⟨2⟩

/-- The removable-devices folder of `sampleHost`. -/
def removableFolder : StorageFolder := ⟨1⟩

/-- The file `a.mp3` of the music library of `sampleHost`. -/
def fileA : StorageFile := ⟨10⟩

/-- The file `e:\docs\a.txt` on a removable drive of `sampleHost`. -/
def fileE : StorageFile := ⟨11⟩

/-- The file `C:\media\b.mkv`, known to the recently-used list of `sampleHost`. -/
def fileB : StorageFile := ⟨30⟩

/-- A host with a music library holding `a.mp3`, a removable drive holding
`e:\docs\a.txt`, a future-access list with one entry for another path, and a
recently-used list with one entry for `C:\media\b.mkv`. A list raises on a
token it does not hold; every mutating call completes. -/
def sampleHost : Host :=
  { IsValid := fun url =>
      decide (url.GetProtocol = "win-lib") &&
        (decide (url.GetHostName = "music") || decide (url.GetHostName = "removable")),
    GetRootFolder := fun url =>
      if url.GetHostName = "removable" then removableFolder else musicFolder,
    GetFolder := fun path => if path = "win-lib://music/" then some musicFolder else none,
    FixSlashesAndDups := fun path => normalizeSeparators '\\' false path.toList,
    HasSlashAtEnd := fun path =>
      decide (path.toList.getLast? = some '/') || decide (path.toList.getLast? = some '\\'),
    fileTimeToTimeT := fun t => (t - 116444736000000000) / 10000000,
    TryGetItemAsync := fun folder path =>
      if folder = musicFolder ∧ path = "a.mp3".toList then .ok (some (.File fileA))
      else if folder = removableFolder ∧ path = "e:\\docs\\a.txt".toList then
        .ok (some (.File fileE))
      else .ok none,
    CreateFileAsync := fun _ _ => .ok (some ⟨20⟩),
    OpenAsync := fun file _ => .ok (some ⟨file.id + 100⟩),
    RetrievePropertiesAsync := fun _ =>
      .ok { DateAccessed := some 131000000000000000, DateCreated := none,
            DateModified := some 131000000000000000, Size := some 4096 },
    FutureAccessList :=
      { Entries := [⟨"tokF", "C:\\other\\f.mkv"⟩],
        GetFileAsync := fun token =>
          if token = "tokF" then .ok (some ⟨31⟩) else .raised .PlatformException },
    MostRecentlyUsedList :=
      { Entries := [⟨"tokB", "C:\\media\\b.mkv"⟩],
        GetFileAsync := fun token =>
          if token = "tokB" then .ok (some fileB) else .raised .PlatformException },
    Completes := fun _ => .ok (),
    outside := fun _ => Char.ofNat 0,
    BufferLength := fun _ => 0 }

/-- The host `sampleHost` with a property request that raises (the file has
gone by the time its properties are asked for). -/
def raisingPropsHost : Host :=
  { sampleHost with RetrievePropertiesAsync := fun _ => .raised .PlatformException }

/-- The URL `win-lib://music/` followed by a file name. -/
def musicUrl (name : String) : CURL :=
  { GetProtocol := "win-lib", GetHostName := "music", GetFileName := name,
    Get := "win-lib://music/" ++ name, GetWithoutFilename := "win-lib://music/",
    GetFileNameWithoutPath := name }

/-- The URL `win-lib://removable/e`: its file path has no separator. -/
def removableUrlE : CURL :=
  { GetProtocol := "win-lib", GetHostName := "removable", GetFileName := "e",
    Get := "win-lib://removable/e", GetWithoutFilename := "win-lib://removable/",
    GetFileNameWithoutPath := "e" }

/-- The URL `win-lib://removable/e/docs/a.txt`. -/
def removableUrlDocs : CURL :=
  { GetProtocol := "win-lib", GetHostName := "removable", GetFileName := "e/docs/a.txt",
    Get := "win-lib://removable/e/docs/a.txt",
    GetWithoutFilename := "win-lib://removable/e/docs/", GetFileNameWithoutPath := "a.txt" }

/-- The URL `win-lib://removable/ab/c.txt`: its first path segment has two letters. -/
def removableUrlAb : CURL :=
  { GetProtocol := "win-lib", GetHostName := "removable", GetFileName := "ab/c.txt",
    Get := "win-lib://removable/ab/c.txt", GetWithoutFilename := "win-lib://removable/ab/",
    GetFileNameWithoutPath := "c.txt" }

/-- The plain path `C:\media\b.mkv` as a URL with the empty protocol. -/
def pickedUrl : CURL :=
  { GetProtocol := "", GetHostName := "", GetFileName := "C:\\media\\b.mkv",
    Get := "C:\\media\\b.mkv", GetWithoutFilename := "C:\\media\\",
    GetFileNameWithoutPath := "b.mkv" }

end WinLibraryFile

/-! # Remote control adapter: theorems -/

namespace RemoteControlXbox

theorem toUInt32_of_lt {n : Nat} (h : n < 4294967296) : toUInt32 n = n := by
  unfold toUInt32; omega

theorem toUInt16_of_lt {n : Nat} (h : n < 65536) : toUInt16 n = n := by
  unfold toUInt16; omega

theorem sub32_of_le {a b : Nat} (hab : b ≤ a) (ha : a < 4294967296) : sub32 a b = a - b := by
  unfold sub32 toUInt32; omega

/-- The state after a key-down (or system key-down) of a mapped key. -/
theorem HandleAcceleratorKey_keyDown (c : IRRemoteCodes) (now : Nat) (s : CRemoteControlXbox)
    (args : AcceleratorKeyEventArgs)
    (hev : args.EventType = .KeyDown ∨ args.EventType = .SystemKeyDown)
    (hk : TranslateVirtualKey c args.VirtualKey ≠ 0) :
    (HandleAcceleratorKey c now s args).1 =
      if s.m_lastKey ≠ args.VirtualKey then
        { s with m_lastKey := args.VirtualKey, m_firstClickTime := toUInt32 now, m_holdTime := 0,
                 m_lastButton := toUInt16 (TranslateVirtualKey c args.VirtualKey) }
      else
        { s with m_holdTime := sub32 now s.m_firstClickTime,
                 m_lastButton := toUInt16 (TranslateVirtualKey c args.VirtualKey) } := by
  obtain ⟨dev, vk, ev, hd⟩ := args
  simp only at hev hk ⊢
  unfold HandleAcceleratorKey
  rcases hev with rfl | rfl <;> by_cases hkk : s.m_lastKey = vk <;> simp [hk, hkk]

/-- C8: `Update()` empties the pending slot, publishes a pending button if
there is one and otherwise keeps the current button, leaves the hold duration,
the tracked key (and the press-start time) alone, and is idempotent: a second
`Update()` with no event in between changes neither the state nor what
`GetButton()` returns. -/
theorem Update_publishes_pending_and_is_idempotent (s : CRemoteControlXbox) :
    (Update s).m_lastButton = 0 ∧
    (Update s).m_button = (if s.m_lastButton ≠ 0 then s.m_lastButton else s.m_button) ∧
    (Update s).m_holdTime = s.m_holdTime ∧
    (Update s).m_lastKey = s.m_lastKey ∧
    (Update s).m_firstClickTime = s.m_firstClickTime ∧
    Update (Update s) = Update s ∧
    GetButton (Update (Update s)) = GetButton (Update s) ∧
    GetHoldTimeMs (Update s) = GetHoldTimeMs s := by
  unfold Update GetButton GetHoldTimeMs
  by_cases h : s.m_lastButton = 0
  · simp [h]
  · simp [h]

/-- C6 (as the code has it): once the device-identifier filter passes, an event
whose virtual key is mapped (its table translation is not 0) leaves the handler
with `Handled` set, whatever its event type; an event whose virtual key is
unmapped leaves the handler before that, with the adapter and the event
arguments, `Handled` included, as they were. -/
theorem AcceleratorKeyActivated_handled (c : IRRemoteCodes) (now : Nat) (s : CRemoteControlXbox)
    (args : AcceleratorKeyEventArgs) (hid : IsRemoteControlId args.DeviceId = true) :
    (TranslateVirtualKey c args.VirtualKey ≠ 0 →
      (AcceleratorKeyActivated c now s args).2.Handled = true) ∧
    (TranslateVirtualKey c args.VirtualKey = 0 →
      AcceleratorKeyActivated c now s args = (s, args)) := by
  unfold AcceleratorKeyActivated HandleAcceleratorKey
  simp only [hid, if_true]
  constructor
  · intro hk
    simp [hk]
  · intro hk
    simp [hk]

/-- C6, at a concrete input: a key-down of the mapped key `GamepadA` is marked
handled, and an unmapped key is not. -/
theorem AcceleratorKeyActivated_handled_witness :
    (AcceleratorKeyActivated sampleCodes 1000 new
        ⟨XBOX_REMOTE_DEVICE_ID, .GamepadA, .KeyDown, false⟩).2.Handled = true ∧
    AcceleratorKeyActivated sampleCodes 1000 new
        ⟨XBOX_REMOTE_DEVICE_ID, .Other 27, .KeyDown, false⟩
      = (new, ⟨XBOX_REMOTE_DEVICE_ID, .Other 27, .KeyDown, false⟩) :=
  ⟨(AcceleratorKeyActivated_handled sampleCodes 1000 new
      ⟨XBOX_REMOTE_DEVICE_ID, .GamepadA, .KeyDown, false⟩ (by decide)).1 (by decide),
   (AcceleratorKeyActivated_handled sampleCodes 1000 new
      ⟨XBOX_REMOTE_DEVICE_ID, .Other 27, .KeyDown, false⟩ (by decide)).2 (by decide)⟩

/-- C6, counterexample to the claim as stated: a key-down event from the
controller (the device filter passes) whose virtual key is unmapped (code 27,
Escape) arrives with `Handled = false` and leaves the handler with
`Handled = false`; the same holds for key-up and for a character event. -/
theorem AcceleratorKeyActivated_unmapped_not_handled :
    IsRemoteControlId XBOX_REMOTE_DEVICE_ID = true ∧
    TranslateVirtualKey sampleCodes (.Other 27) = 0 ∧
    (AcceleratorKeyActivated sampleCodes 1000 new
        ⟨XBOX_REMOTE_DEVICE_ID, .Other 27, .KeyDown, false⟩).2.Handled = false ∧
    (AcceleratorKeyActivated sampleCodes 1000 new
        ⟨XBOX_REMOTE_DEVICE_ID, .Other 27, .KeyUp, false⟩).2.Handled = false ∧
    (AcceleratorKeyActivated sampleCodes 1000 new
        ⟨XBOX_REMOTE_DEVICE_ID, .Other 27, .Character, false⟩).2.Handled = false := by
  decide

/-- C7: a key-down (or system key-down) of a mapped key `k` at clock time `t`.
If `k` is the tracked key the hold duration becomes `t` minus the press-start
time in unsigned 32-bit arithmetic, `(t + 2^32 - start) mod 2^32`, which is
`t - start` when the clock has not wrapped since the press started (tracked
key and press-start time stay); if `k` is another key, `k` becomes the tracked
key, the press-start time becomes `t` and the hold duration 0. Either way the
pending button becomes the code of `k` and `GetButton()` returns it after the
next `Update()`. A further key-down of `k` at a later time `t2` of a clock
that has not wrapped since the press started yields the hold duration `t2`
minus the press-start time, which is at least the one before. -/
theorem HandleAcceleratorKey_keyDown_tracks_hold (c : IRRemoteCodes) (s : CRemoteControlXbox)
    (k : VirtualKey) (t : Nat) (dev : String) (ev : CoreAcceleratorKeyEventType) (handled : Bool)
    (hev : ev = .KeyDown ∨ ev = .SystemKeyDown)
    (hk : TranslateVirtualKey c k ≠ 0) (hcode : TranslateVirtualKey c k < 65536)
    (ht : t < 4294967296) :
    (k = s.m_lastKey →
      (HandleAcceleratorKey c t s ⟨dev, k, ev, handled⟩).1.m_holdTime
        = (t + 4294967296 - s.m_firstClickTime % 4294967296) % 4294967296 ∧
      (s.m_firstClickTime ≤ t →
        (HandleAcceleratorKey c t s ⟨dev, k, ev, handled⟩).1.m_holdTime
          = t - s.m_firstClickTime) ∧
      (HandleAcceleratorKey c t s ⟨dev, k, ev, handled⟩).1.m_lastKey = k ∧
      (HandleAcceleratorKey c t s ⟨dev, k, ev, handled⟩).1.m_firstClickTime = s.m_firstClickTime) ∧
    (k ≠ s.m_lastKey →
      (HandleAcceleratorKey c t s ⟨dev, k, ev, handled⟩).1.m_lastKey = k ∧
      (HandleAcceleratorKey c t s ⟨dev, k, ev, handled⟩).1.m_firstClickTime = t ∧
      (HandleAcceleratorKey c t s ⟨dev, k, ev, handled⟩).1.m_holdTime = 0) ∧
    (HandleAcceleratorKey c t s ⟨dev, k, ev, handled⟩).1.m_lastButton = TranslateVirtualKey c k ∧
    GetButton (Update (HandleAcceleratorKey c t s ⟨dev, k, ev, handled⟩).1)
      = TranslateVirtualKey c k ∧
    (∀ (t2 : Nat) (dev2 : String) (ev2 : CoreAcceleratorKeyEventType) (handled2 : Bool),
      (ev2 = .KeyDown ∨ ev2 = .SystemKeyDown) → t ≤ t2 → t2 < 4294967296 →
      (s.m_lastKey = k → s.m_firstClickTime ≤ t) →
      (HandleAcceleratorKey c t s ⟨dev, k, ev, handled⟩).1.m_holdTime
        = (if s.m_lastKey = k then t - s.m_firstClickTime else 0) ∧
      (HandleAcceleratorKey c t2 (HandleAcceleratorKey c t s ⟨dev, k, ev, handled⟩).1
          ⟨dev2, k, ev2, handled2⟩).1.m_holdTime
        = t2 - (if s.m_lastKey = k then s.m_firstClickTime else t) ∧
      (HandleAcceleratorKey c t s ⟨dev, k, ev, handled⟩).1.m_holdTime ≤
        (HandleAcceleratorKey c t2 (HandleAcceleratorKey c t s ⟨dev, k, ev, handled⟩).1
          ⟨dev2, k, ev2, handled2⟩).1.m_holdTime) := by
  have h1 := HandleAcceleratorKey_keyDown c t s ⟨dev, k, ev, handled⟩ hev hk
  simp only at h1
  have h16 := toUInt16_of_lt hcode
  have h32 := toUInt32_of_lt ht
  refine ⟨?_, ?_, ?_, ?_, ?_⟩
  · intro hkk
    refine ⟨?_, ?_, ?_, ?_⟩
    · rw [h1]; simp [hkk, sub32, toUInt32, Nat.mod_eq_of_lt ht]
    · intro hle
      rw [h1]; simp [hkk, sub32_of_le hle ht]
    · rw [h1]; simp [hkk]
    · rw [h1]; simp [hkk]
  · intro hkk
    rw [h1]; simp [Ne.symm hkk, h32]
  · rw [h1]; split <;> simp [h16]
  · rw [h1]; unfold Update GetButton; split <;> simp [h16, hk]
  · intro t2 dev2 ev2 handled2 hev2 htt ht2 hfirst
    have h2 := HandleAcceleratorKey_keyDown c t2
      (HandleAcceleratorKey c t s ⟨dev, k, ev, handled⟩).1 ⟨dev2, k, ev2, handled2⟩ hev2 hk
    simp only at h2
    rw [h2, h1]
    by_cases hkk : s.m_lastKey = k
    · have hf := hfirst hkk
      simp [hkk]
      rw [sub32_of_le hf ht, sub32_of_le (le_trans hf htt) ht2]
      omega
    · simp [hkk, h32, sub32_of_le htt ht2]

/-- C7, at a concrete input: `GamepadA` pressed at time 1000 on a fresh
adapter (hold duration 0, press-start time 1000) and again at time 1250 (hold
duration 250). -/
theorem HandleAcceleratorKey_keyDown_tracks_hold_witness :
    (HandleAcceleratorKey sampleCodes 1000 new
        ⟨XBOX_REMOTE_DEVICE_ID, .GamepadA, .KeyDown, false⟩).1.m_lastButton = 11 ∧
    GetButton (Update (HandleAcceleratorKey sampleCodes 1000 new
        ⟨XBOX_REMOTE_DEVICE_ID, .GamepadA, .KeyDown, false⟩).1) = 11 ∧
    (HandleAcceleratorKey sampleCodes 1000 new
        ⟨XBOX_REMOTE_DEVICE_ID, .GamepadA, .KeyDown, false⟩).1.m_holdTime = 0 ∧
    (HandleAcceleratorKey sampleCodes 1000 new
        ⟨XBOX_REMOTE_DEVICE_ID, .GamepadA, .KeyDown, false⟩).1.m_firstClickTime = 1000 ∧
    (HandleAcceleratorKey sampleCodes 1250 (HandleAcceleratorKey sampleCodes 1000 new
        ⟨XBOX_REMOTE_DEVICE_ID, .GamepadA, .KeyDown, false⟩).1
        ⟨XBOX_REMOTE_DEVICE_ID, .GamepadA, .KeyDown, false⟩).1.m_holdTime = 250 :=
  have h := HandleAcceleratorKey_keyDown_tracks_hold sampleCodes new .GamepadA 1000
    XBOX_REMOTE_DEVICE_ID .KeyDown false (Or.inl rfl) (by decide) (by decide) (by decide)
  have h2 := h.2.2.2.2 1250 XBOX_REMOTE_DEVICE_ID .KeyDown false (Or.inl rfl) (by decide)
    (by decide) (by decide)
  ⟨h.2.2.1, h.2.2.2.1, (h.2.1 (by decide)).2.2, (h.2.1 (by decide)).2.1,
    h2.2.1.trans (by decide)⟩

end RemoteControlXbox

/-! # Library file adapter: theorems -/

namespace WinLibraryFile

/-- The stream-opening step leaves the write-permission flag alone. -/
theorem openStream_allowWrite (h : Host) (mode : FileAccessMode) (s : CWinLibraryFile) :
    (openStream h mode s).2.m_allowWrite = s.m_allowWrite := by
  unfold openStream
  split
  · split
    · rfl
    · rfl
    · rfl
  · rfl

/-- No path through `OpenIntenal` assigns the write-permission flag. -/
theorem OpenIntenal_allowWrite (h : Host) (url : CURL) (mode : FileAccessMode)
    (s : CWinLibraryFile) : (OpenIntenal h url mode s).2.m_allowWrite = s.m_allowWrite := by
  unfold OpenIntenal
  split
  · rfl
  · rfl
  · rw [openStream_allowWrite]
  · split
    · split
      · split
        · rw [openStream_allowWrite]
        · rw [openStream_allowWrite]
        · rfl
        · rfl
      · rw [openStream_allowWrite]
    · rw [openStream_allowWrite]

/-- Closing leaves the write-permission flag alone. -/
theorem Close_allowWrite (s : CWinLibraryFile) : (Close s).m_allowWrite = s.m_allowWrite := by
  simp only [Close]
  split_ifs <;> rfl

/-- C1 (what the code does): the write-permission flag is false from the
constructor on and `OpenIntenal` never sets it, so on an adapter on which
`OpenForWrite` has just returned true, `Write` returns -1 and issues no host
write, whatever the buffer and the byte count. -/
theorem Write_after_OpenForWrite_returns_minus_one (h : Host) (url : CURL) (bOverWrite : Bool)
    (s : CWinLibraryFile) (lpBuf : List Nat) (uiBufSize : Nat)
    (hflag : s.m_allowWrite = false)
    (hopen : (OpenForWrite h url bOverWrite s).1 = .ok true) :
    (OpenForWrite h url bOverWrite s).2.m_fileStream ≠ none ∧
    Write h (OpenForWrite h url bOverWrite s).2 lpBuf uiBufSize = (.ok (-1), []) := by
  have hw : (OpenForWrite h url bOverWrite s).2.m_allowWrite = false := by
    unfold OpenForWrite; rw [OpenIntenal_allowWrite]; exact hflag
  constructor
  · revert hopen
    unfold OpenForWrite OpenIntenal openStream
    repeat' split
    all_goals simp_all
  · unfold Write
    split
    · rfl
    · simp [hw]

/-- C1, at a concrete input: on a fresh adapter `OpenForWrite` of the existing
file `win-lib://music/a.mp3` returns true, and the `Write` of three bytes that
follows returns -1. -/
theorem Write_after_OpenForWrite_returns_minus_one_witness :
    (OpenForWrite sampleHost (musicUrl "a.mp3") true new).1 = .ok true ∧
    Write sampleHost (OpenForWrite sampleHost (musicUrl "a.mp3") true new).2 [1, 2, 3] 3
      = (.ok (-1), []) :=
  ⟨by decide,
   (Write_after_OpenForWrite_returns_minus_one sampleHost (musicUrl "a.mp3") true new [1, 2, 3] 3
      rfl (by decide)).2⟩

/-- C2 (what the code does): for a URL outside the library roots with the
`file` or the empty protocol, when the future-access list has no entry for the
URL and the recently-used list has one with token `t`, `GetFile` returns what
the future-access list answers for `t`; the recently-used list is not asked. -/
theorem GetFile_resolves_recentlyUsed_token_in_futureAccessList (h : Host) (url : CURL)
    (t : String) (hlib : h.IsValid url = false)
    (hproto : url.GetProtocol = "file" ∨ url.GetProtocol = "")
    (hfal : tokenMissing (GetTokenFromList url h.FutureAccessList) = true)
    (hmru : GetTokenFromList url h.MostRecentlyUsedList = some t) (ht : t ≠ "") :
    GetFile h url = h.FutureAccessList.GetFileAsync t := by
  unfold GetFile
  simp [hlib, hproto, hfal, hmru, ht]

/-- C2, at a concrete input: `C:\media\b.mkv` has an entry only in the
recently-used list, which resolves its token to a file; `GetFile` hands the
token to the future-access list instead and the exception that list raises
leaves `GetFile`. -/
theorem GetFile_resolves_recentlyUsed_token_in_futureAccessList_witness :
    GetTokenFromList pickedUrl sampleHost.FutureAccessList = none ∧
    GetTokenFromList pickedUrl sampleHost.MostRecentlyUsedList = some "tokB" ∧
    sampleHost.MostRecentlyUsedList.GetFileAsync "tokB" = .ok (some fileB) ∧
    GetFile sampleHost pickedUrl = sampleHost.FutureAccessList.GetFileAsync "tokB" ∧
    GetFile sampleHost pickedUrl = .raised .PlatformException :=
  ⟨by decide, by decide, by decide,
   GetFile_resolves_recentlyUsed_token_in_futureAccessList sampleHost pickedUrl "tokB"
     (by decide) (by decide) (by decide) (by decide) (by decide),
   by decide⟩

/-- On an adapter that holds no file object and no stream (fresh, or closed),
`Open` returns true only if `GetFile` resolves the URL, and the file object of
the session is then the resolved one. -/
theorem Open_without_kept_file (h : Host) (url : CURL) (s : CWinLibraryFile)
    (hfile : s.m_sFile = none) (hstream : s.m_fileStream = none)
    (hopen : (Open h url s).1 = .ok true) :
    ∃ f, GetFile h url = .ok (some f) ∧ (Open h url s).2.m_sFile = some f := by
  unfold Open at hopen ⊢
  unfold OpenIntenal at hopen ⊢
  cases hg : GetFile h url with
  | raised e => cases e <;> simp [hg] at hopen
  | ok o =>
    cases o with
    | none => simp [hg, openStream, hfile, hstream] at hopen
    | some f =>
      refine ⟨f, rfl, ?_⟩
      simp only [openStream]
      split <;> rfl

/-- C3 (what the code does): on an adapter that still holds the file object of
an earlier call, `Open` of a URL that `GetFile` does not resolve opens a
stream on the kept file object and returns true; the file object of the
session is the kept one. -/
theorem Open_reuses_kept_file (h : Host) (url : CURL) (s : CWinLibraryFile)
    (kept : StorageFile) (stream : IRandomAccessStream)
    (hkept : s.m_sFile = some kept) (hget : GetFile h url = .ok none)
    (hstream : h.OpenAsync kept FileAccessMode.Read = .ok (some stream)) :
    Open h url s = (.ok true, { s with m_fileStream := some stream }) ∧
    (Open h url s).2.m_sFile = some kept := by
  have h1 : Open h url s = (.ok true, { s with m_fileStream := some stream }) := by
    unfold Open OpenIntenal
    simp [hget, openStream, hkept, hstream]
  exact ⟨h1, by rw [h1]; exact hkept⟩

/-- C3, at a concrete input: `Open` of `win-lib://music/a.mp3` succeeds on a
fresh adapter; with no `Close` in between, `Open` of `win-lib://music/zz.mp3`,
which `GetFile` does not resolve, returns true and the session keeps the file
object of `a.mp3`. -/
theorem Open_reuses_kept_file_witness :
    GetFile sampleHost (musicUrl "zz.mp3") = .ok none ∧
    (Open sampleHost (musicUrl "zz.mp3") (Open sampleHost (musicUrl "a.mp3") new).2).1
      = .ok true ∧
    (Open sampleHost (musicUrl "zz.mp3") (Open sampleHost (musicUrl "a.mp3") new).2).2.m_sFile
      = some fileA :=
  have h := Open_reuses_kept_file sampleHost (musicUrl "zz.mp3")
    (Open sampleHost (musicUrl "a.mp3") new).2 fileA ⟨110⟩ (by decide) (by decide) (by decide)
  ⟨by decide, by rw [h.1], h.2⟩

/-- Searching a string that holds the character: the position found is the
length of the part before its first occurrence. -/
theorem findFrom_append (c : Char) (seg rest : WString) (i : Nat) (hseg : c ∉ seg) :
    findFrom c (seg ++ c :: rest) i = i + seg.length := by
  induction seg generalizing i with
  | nil => simp [findFrom]
  | cons x xs ih =>
    have hx : x ≠ c := fun hxc => hseg (by simp [hxc])
    have hxs : c ∉ xs := fun hm => hseg (List.mem_cons_of_mem _ hm)
    have hstep : findFrom c (x :: xs ++ c :: rest) i = findFrom c (xs ++ c :: rest) (i + 1) := by
      simp [findFrom, hx]
    rw [hstep, ih (i + 1) hxs, List.length_cons]
    omega

/-- Searching a string that does not hold the character yields `npos`. -/
theorem findFrom_not_mem (c : Char) (w : WString) (i : Nat) (hw : c ∉ w) :
    findFrom c w i = npos := by
  induction w generalizing i with
  | nil => rfl
  | cons x xs ih =>
    have hx : x ≠ c := fun hxc => hw (by simp [hxc])
    have hxs : c ∉ xs := fun hm => hw (List.mem_cons_of_mem _ hm)
    simp only [findFrom, hx, if_false]
    exact ih (i + 1) hxs

/-- The fix-up on a path split at its first separator: `seg` is the first
path segment, `rest` what follows the separator. -/
theorem driveLetterFixup_split (outside : Nat → Char) (seg rest : WString)
    (hseg : '\\' ∉ seg) :
    driveLetterFixup outside (seg ++ '\\' :: rest) =
      { oobRead := none,
        result := .ok (if seg ≠ [] ∧ seg.getLast? ≠ some ':' then seg ++ ':' :: '\\' :: rest
                       else seg ++ '\\' :: rest) } := by
  unfold driveLetterFixup find
  rw [findFrom_append _ _ _ _ hseg]
  simp only [Nat.zero_add]
  by_cases hnil : seg = []
  · subst hnil
    simp
  · have hpos : seg.length > 0 := List.length_pos.mpr hnil
    have hread : (seg ++ '\\' :: rest)[seg.length - 1]? = seg.getLast? := by
      rw [List.getElem?_append_left (by omega), List.getLast?_eq_getElem?]
    simp only [hpos, if_true, charAt, hread]
    cases hl : seg.getLast? with
    | none => simp [List.getLast?_eq_none_iff] at hl; exact absurd hl hnil
    | some ch =>
      by_cases hc : ch = ':'
      · simp [hc]
      · simp [hc, hnil, insert]

/-- A path that holds a separator splits at the first one into its first
segment and the rest. -/
theorem exists_first_segment (wpath : WString) (hsep : '\\' ∈ wpath) :
    ∃ seg rest, wpath = seg ++ '\\' :: rest ∧ '\\' ∉ seg :=
  List.eq_append_cons_of_mem hsep

/-- A library URL is looked up under its root folder at the path `lookupPath`
yields; only an item of file type is returned, and a `Platform::Exception` of
the lookup is answered with a null result. -/
theorem GetFile_library (h : Host) (url : CURL) (wpath : WString)
    (hvalid : h.IsValid url = true) (hpath : (lookupPath h url).result = .ok wpath) :
    GetFile h url = tryGetFile h (h.GetRootFolder url) wpath := by
  unfold GetFile tryGetFile
  simp only [hvalid, if_true, hpath]

/-- C4 (as the code has it): for a library URL. Under the `removable` root,
when the normalised path has a separator, with `seg` its first path segment
and `rest` what follows the first separator: if `seg` is not empty and does
not end in a colon (a single letter or not), the path `GetFile` hands to the
lookup under the root folder is the normalised path with one colon inserted
right after `seg`; if `seg` is empty or ends in a colon, it is the normalised
path unchanged; no read leaves the string. Under any other root the path
handed to the lookup is the normalised path, with or without a separator. -/
theorem lookupPath_removable_inserts_colon (h : Host) (url : CURL)
    (hvalid : h.IsValid url = true) :
    (∀ seg rest : WString,
      h.FixSlashesAndDups url.GetFileName = seg ++ '\\' :: rest → '\\' ∉ seg →
      url.GetHostName = "removable" →
      lookupPath h url =
        { oobRead := none,
          result := .ok (if seg ≠ [] ∧ seg.getLast? ≠ some ':' then seg ++ ':' :: '\\' :: rest
                         else seg ++ '\\' :: rest) } ∧
      GetFile h url =
        tryGetFile h (h.GetRootFolder url)
          (if seg ≠ [] ∧ seg.getLast? ≠ some ':' then seg ++ ':' :: '\\' :: rest
           else seg ++ '\\' :: rest)) ∧
    (url.GetHostName ≠ "removable" →
      lookupPath h url
        = { oobRead := none, result := .ok (h.FixSlashesAndDups url.GetFileName) } ∧
      GetFile h url
        = tryGetFile h (h.GetRootFolder url) (h.FixSlashesAndDups url.GetFileName)) := by
  constructor
  · intro seg rest hpath hseg hrem
    have hl : lookupPath h url =
        { oobRead := none,
          result := .ok (if seg ≠ [] ∧ seg.getLast? ≠ some ':' then seg ++ ':' :: '\\' :: rest
                         else seg ++ '\\' :: rest) } := by
      simp only [lookupPath, hrem, if_true, hpath]
      exact driveLetterFixup_split h.outside seg rest hseg
    exact ⟨hl, GetFile_library h url _ hvalid (by rw [hl])⟩
  · intro hrem
    have hl : lookupPath h url
        = { oobRead := none, result := .ok (h.FixSlashesAndDups url.GetFileName) } := by
      simp only [lookupPath, hrem, if_false]
    exact ⟨hl, GetFile_library h url _ hvalid (by rw [hl])⟩

/-- C4, at a concrete input: `win-lib://removable/e/docs/a.txt`, whose
normalised path is `e\docs\a.txt`, is looked up as `e:\docs\a.txt`, where the
file is found; the music URL `win-lib://music/a.mp3`, whose path has no
separator, is looked up as `a.mp3`, and `win-lib://music/x/a.mp3` as
`x\a.mp3`. -/
theorem lookupPath_removable_inserts_colon_witness :
    lookupPath sampleHost removableUrlDocs
      = { oobRead := none, result := .ok "e:\\docs\\a.txt".toList } ∧
    GetFile sampleHost removableUrlDocs
      = tryGetFile sampleHost removableFolder "e:\\docs\\a.txt".toList ∧
    GetFile sampleHost removableUrlDocs = .ok (some fileE) ∧
    lookupPath sampleHost (musicUrl "a.mp3")
      = { oobRead := none, result := .ok "a.mp3".toList } ∧
    GetFile sampleHost (musicUrl "a.mp3") = tryGetFile sampleHost musicFolder "a.mp3".toList ∧
    lookupPath sampleHost (musicUrl "x/a.mp3")
      = { oobRead := none, result := .ok "x\\a.mp3".toList } :=
  have hrem := (lookupPath_removable_inserts_colon sampleHost removableUrlDocs (by decide)).1
    "e".toList "docs\\a.txt".toList (by decide) (by decide) (by decide)
  have hmusic := (lookupPath_removable_inserts_colon sampleHost (musicUrl "a.mp3")
    (by decide)).2 (by decide)
  have hmusicx := (lookupPath_removable_inserts_colon sampleHost (musicUrl "x/a.mp3")
    (by decide)).2 (by decide)
  ⟨hrem.1, hrem.2, by decide, hmusic.1, hmusic.2, hmusicx.1⟩

/-- C4, counterexample to the claim as stated: the normalised path of
`win-lib://removable/ab/c.txt` is `ab\c.txt`; its first segment `ab` is not a
single letter, yet the path handed to the lookup is `ab:\c.txt`, not the
normalised path. -/
theorem lookupPath_two_letter_segment_changed :
    removableUrlAb.GetHostName = "removable" ∧
    sampleHost.FixSlashesAndDups removableUrlAb.GetFileName = "ab\\c.txt".toList ∧
    ("ab\\c.txt".toList.takeWhile (fun ch => ch != '\\')).length = 2 ∧
    (lookupPath sampleHost removableUrlAb).result = .ok "ab:\\c.txt".toList ∧
    (lookupPath sampleHost removableUrlAb).result
      ≠ .ok (sampleHost.FixSlashesAndDups removableUrlAb.GetFileName) := by
  decide

/-- The fix-up on a path without a separator: `find` yields `npos`, the test
`index > 0` passes, the read at `npos - 1` lies outside the string, and unless
that read happens to yield a colon the insertion at `npos` raises. -/
theorem driveLetterFixup_without_separator (outside : Nat → Char) (wpath : WString)
    (hsep : '\\' ∉ wpath) (hlen : wpath.length < npos - 1) :
    (driveLetterFixup outside wpath).oobRead = some (npos - 1) ∧
    (outside (npos - 1) ≠ ':' →
      (driveLetterFixup outside wpath).result = .raised .out_of_range) ∧
    (outside (npos - 1) = ':' → (driveLetterFixup outside wpath).result = .ok wpath) := by
  have hfind : find wpath '\\' = npos := findFrom_not_mem _ _ _ hsep
  have hnpos : npos > 0 := by decide
  have hget : wpath[npos - 1]? = none := List.getElem?_eq_none (by omega)
  have hne : npos - 1 ≠ wpath.length := by omega
  have hins : npos > wpath.length := by omega
  unfold driveLetterFixup
  simp only [hfind, hnpos, if_true, charAt, hget, hne, if_false]
  refine ⟨trivial, ?_, ?_⟩
  · intro hout
    simp [hout, insert, hins]
  · intro hout
    simp [hout]

/-- C10 (what the code does): for a library URL under the `removable` root
whose normalised path has no separator, the fix-up reads the character at
position `npos - 1`, outside the path string, and, unless that read happens to
yield a colon, inserts at position `npos`, past the end of the string: the
`std::out_of_range` this raises is raised outside the `try` block and is no
`Platform::Exception`, so it leaves `GetFile`, and with it `Exists`, `Delete`
and `Open`. -/
theorem GetFile_removable_without_separator_raises (h : Host) (url : CURL)
    (s : CWinLibraryFile)
    (hvalid : h.IsValid url = true) (hrem : url.GetHostName = "removable")
    (hsep : '\\' ∉ h.FixSlashesAndDups url.GetFileName)
    (hlen : (h.FixSlashesAndDups url.GetFileName).length < npos - 1)
    (hout : h.outside (npos - 1) ≠ ':') :
    (lookupPath h url).oobRead = some (npos - 1) ∧
    (lookupPath h url).result = .raised .out_of_range ∧
    GetFile h url = .raised .out_of_range ∧
    Exists h url = .raised .out_of_range ∧
    (Delete h url).1 = .raised .out_of_range ∧
    (Open h url s).1 = .raised .out_of_range := by
  have hfix := driveLetterFixup_without_separator h.outside _ hsep hlen
  have hl1 : (lookupPath h url).oobRead = some (npos - 1) := by
    simp only [lookupPath, hrem, if_true]; exact hfix.1
  have hl2 : (lookupPath h url).result = .raised .out_of_range := by
    simp only [lookupPath, hrem, if_true]; exact hfix.2.1 hout
  have hg : GetFile h url = .raised .out_of_range := by
    unfold GetFile
    simp only [hvalid, if_true, hl2]
  refine ⟨hl1, hl2, hg, ?_, ?_, ?_⟩
  · simp only [Exists, hg]
  · simp only [Delete, hg]
  · simp only [Open, OpenIntenal, hg]

/-- C10, at a concrete input: `win-lib://removable/e`, whose normalised path
is `e`. -/
theorem GetFile_removable_without_separator_raises_witness :
    sampleHost.FixSlashesAndDups removableUrlE.GetFileName = "e".toList ∧
    (lookupPath sampleHost removableUrlE).oobRead = some 18446744073709551614 ∧
    GetFile sampleHost removableUrlE = .raised .out_of_range ∧
    Exists sampleHost removableUrlE = .raised .out_of_range :=
  have h := GetFile_removable_without_separator_raises sampleHost removableUrlE new
    (by decide) (by decide) (by decide) (by decide) (by decide)
  ⟨by decide, h.1, h.2.2.1, h.2.2.2.1⟩

/-- The cases in which `Rename` answers false without a host call: the
destination URL is not valid; the source does not resolve; the destination
does not exist and its parent folder does not resolve. -/
theorem Rename_refuses (h : Host) (urlCurrentName urlNewName : CURL) :
    (IsValid h urlNewName = false → Rename h urlCurrentName urlNewName = (.ok false, [])) ∧
    (GetFile h urlCurrentName = .ok none →
      Rename h urlCurrentName urlNewName = (.ok false, [])) ∧
    (∀ currFile, GetFile h urlCurrentName = .ok (some currFile) →
      GetFile h urlNewName = .ok none → h.GetFolder urlNewName.GetWithoutFilename = none →
      Rename h urlCurrentName urlNewName = (.ok false, [])) := by
  refine ⟨?_, ?_, ?_⟩
  · intro hv
    simp [Rename, hv]
  · intro hsrc
    unfold Rename
    split
    · rfl
    · simp [hsrc]
  · intro currFile hsrc hdst hfolder
    unfold Rename
    split
    · rfl
    · simp [hsrc, hdst, hfolder]

/-- C5 (what the code does): for a source that resolves to `currFile` and a
valid destination URL that does not exist and whose parent folder resolves to
`destFolder`, `Rename` returns true after the one host call
`currFile->MoveAsync(destFolder)`. The call names the folder only, so two
destinations in that folder with different file names lead to the same host
call and the same result: the file name of the destination URL does not reach
the host. -/
theorem Rename_move_passes_folder_only (h : Host) (urlCurrentName urlNewName urlOtherName : CURL)
    (currFile : StorageFile) (destFolder : StorageFolder)
    (hv1 : IsValid h urlNewName = true) (hv2 : IsValid h urlOtherName = true)
    (hsrc : GetFile h urlCurrentName = .ok (some currFile))
    (hd1 : GetFile h urlNewName = .ok none) (hd2 : GetFile h urlOtherName = .ok none)
    (hf1 : h.GetFolder urlNewName.GetWithoutFilename = some destFolder)
    (hf2 : h.GetFolder urlOtherName.GetWithoutFilename = some destFolder)
    (hdone : h.Completes (.MoveAsync currFile destFolder) = .ok ()) :
    Rename h urlCurrentName urlNewName = (.ok true, [.MoveAsync currFile destFolder]) ∧
    Rename h urlCurrentName urlOtherName = Rename h urlCurrentName urlNewName := by
  have h1 : Rename h urlCurrentName urlNewName = (.ok true, [.MoveAsync currFile destFolder]) := by
    simp [Rename, hv1, hsrc, hd1, hf1, hdone]
  have h2 : Rename h urlCurrentName urlOtherName
      = (.ok true, [.MoveAsync currFile destFolder]) := by
    simp [Rename, hv2, hsrc, hd2, hf2, hdone]
  exact ⟨h1, by rw [h1, h2]⟩

/-- C5, at a concrete input: renaming `win-lib://music/a.mp3` to
`win-lib://music/b.mp3` and renaming it to `win-lib://music/c.mp3` both issue
the host call that moves `a.mp3` into the music folder. -/
theorem Rename_move_passes_folder_only_witness :
    Rename sampleHost (musicUrl "a.mp3") (musicUrl "b.mp3")
      = (.ok true, [.MoveAsync fileA musicFolder]) ∧
    Rename sampleHost (musicUrl "a.mp3") (musicUrl "c.mp3")
      = Rename sampleHost (musicUrl "a.mp3") (musicUrl "b.mp3") :=
  Rename_move_passes_folder_only sampleHost (musicUrl "a.mp3") (musicUrl "b.mp3")
    (musicUrl "c.mp3") fileA musicFolder (by decide) (by decide) (by decide) (by decide)
    (by decide) (by decide) (by decide) (by decide)

/-- When the property request raises, the exception leaves `Stat`: no value is
returned, and the record has only its group id, user id and inode set. -/
theorem Stat_request_raises (h : Host) (file : StorageFile) (statData : Stat64) (e : Raised)
    (hprops : h.RetrievePropertiesAsync file = .raised e) :
    Stat h (some file) (some statData)
      = (.raised e, some { statData with st_gid := 0, st_uid := 0, st_ino := 0 }) := by
  simp only [Stat, hprops]

/-- C9 (as the code has it): with a file object and a record, when the host's
property request completes, `Stat` returns 0 and the record has group id, user
id, inode, device and rdev 0, link count 1 and mode octal 0444: `_S_IREAD`
(0400) with the owner read bit copied into the group and the other position by
the two shift-and-or steps, and no write, execute or other bit. `Stat` returns
-1 exactly when the record pointer or the file object is null. -/
theorem Stat_fixed_fields_and_mode (h : Host) (file : StorageFile) (statData : Stat64)
    (props : RequestedProps) (hprops : h.RetrievePropertiesAsync file = .ok props) :
    ((Stat h (some file) (some statData)).1 = .ok 0 ∧
      ∃ sd, (Stat h (some file) (some statData)).2 = some sd ∧
        sd.st_gid = 0 ∧ sd.st_uid = 0 ∧ sd.st_ino = 0 ∧ sd.st_dev = 0 ∧ sd.st_rdev = 0 ∧
        sd.st_nlink = 1 ∧ sd.st_mode = 0o444 ∧
        sd.st_mode = _S_IREAD ||| (_S_IREAD >>> 3) ||| (_S_IREAD >>> 6) ∧
        sd.st_mode &&& 0o222 = 0 ∧ sd.st_mode &&& 0o111 = 0 ∧ sd.st_mode &&& 0o444 = sd.st_mode) ∧
    _S_IREAD = 0o400 ∧
    (∀ (h : Host) (file : Option StorageFile) (statData : Option Stat64),
      (Stat h file statData).1 = .ok (-1) ↔ (statData = none ∨ file = none)) := by
  refine ⟨?_, by decide, ?_⟩
  · simp only [Stat, hprops]
    refine ⟨trivial, ?_⟩
    rcases props with ⟨_ | a, _ | c, _ | m, _ | sz⟩ <;>
      (refine ⟨_, rfl, ?_⟩; simp only []; decide)
  · intro h file statData
    cases statData with
    | none => simp [Stat]
    | some sd =>
      cases file with
      | none => simp [Stat]
      | some f =>
        cases hp : h.RetrievePropertiesAsync f with
        | ok p => simp [Stat, hp]
        | raised e => simp [Stat, hp]

/-- C9, at a concrete input: `Stat` of `a.mp3` on the sample host, whose
property request completes, with a record that has 7 in every field. -/
theorem Stat_fixed_fields_and_mode_witness :
    (Stat sampleHost (some fileA) (some ⟨7, 7, 7, 7, 7, 7, 7, 7, 7, 7, 7⟩)).1 = .ok 0 ∧
    (Stat sampleHost (some fileA) (some ⟨7, 7, 7, 7, 7, 7, 7, 7, 7, 7, 7⟩)).2
      = some ⟨0, 0, 0o444, 1, 0, 0, 0, 4096, 1455526400, 1455526400, 7⟩ :=
  ⟨(Stat_fixed_fields_and_mode sampleHost fileA ⟨7, 7, 7, 7, 7, 7, 7, 7, 7, 7, 7⟩
      { DateAccessed := some 131000000000000000, DateCreated := none,
        DateModified := some 131000000000000000, Size := some 4096 } rfl).1.1,
   by decide⟩

/-- C9, counterexample to the claim as stated: with a file object and a
record, on a host whose property request raises, `Stat` does not return 0:
the exception leaves it, and device, rdev, link count and mode of the record
are what they were (7), not 0, 0, 1 and 0444. -/
theorem Stat_raising_request_returns_nothing :
    Stat raisingPropsHost (some fileA) (some ⟨7, 7, 7, 7, 7, 7, 7, 7, 7, 7, 7⟩)
      = (.raised .PlatformException, some ⟨7, 0, 7, 7, 0, 0, 7, 7, 7, 7, 7⟩) ∧
    (Stat raisingPropsHost (some fileA) (some ⟨7, 7, 7, 7, 7, 7, 7, 7, 7, 7, 7⟩)).1 ≠ .ok 0 := by
  decide

end WinLibraryFile

/-! # Remote control adapter: unmapped inputs -/

namespace RemoteControlXbox

/-- An unmapped virtual key on the accelerator-key stream is dropped: the
handler leaves the adapter and the event as they were, so the next `Update()`
publishes what it would have published without the event. -/
theorem HandleAcceleratorKey_unmapped_dropped (c : IRRemoteCodes) (now : Nat)
    (s : CRemoteControlXbox) (args : AcceleratorKeyEventArgs)
    (hk : TranslateVirtualKey c args.VirtualKey = 0) :
    HandleAcceleratorKey c now s args = (s, args) ∧
    Update (HandleAcceleratorKey c now s args).1 = Update s := by
  have h1 : HandleAcceleratorKey c now s args = (s, args) := by
    unfold HandleAcceleratorKey
    simp [hk]
  exact ⟨h1, by rw [h1]⟩

/-- The media handler stores the table translation as the pending button and
touches nothing else. -/
theorem HandleMediaButton_stores_translation (c : IRRemoteCodes) (s : CRemoteControlXbox)
    (button : SystemMediaTransportControlsButton) :
    HandleMediaButton c s button
      = { s with m_lastButton := toUInt16 (TranslateMediaKey c button) } := rfl

/-- With non-zero table constants every media button has a non-zero
translation: the media-transport stream has no unmapped button. -/
theorem TranslateMediaKey_ne_zero (c : IRRemoteCodes) (hmedia : MediaCodesNonZero c)
    (button : SystemMediaTransportControlsButton) : TranslateMediaKey c button ≠ 0 := by
  obtain ⟨h1, h2, h3, h4, h5, h6, h7, h8, h9, h10⟩ := hmedia
  cases button <;> simp only [TranslateMediaKey] <;> assumption

/-- C11: an input whose table translation is 0 leaves the pending button and
the current button as they were, so the next `Update()` publishes what it
would have published without the event and `GetButton()` after it is the
same. On the accelerator-key stream these inputs are the unmapped virtual
keys, which the handler drops on entry. On the media-transport stream there is
no such input: the table names every button of the host type and its
constants are non-zero button codes. -/
theorem unmapped_input_dropped (c : IRRemoteCodes) (hmedia : MediaCodesNonZero c)
    (s : CRemoteControlXbox) :
    (∀ (now : Nat) (args : AcceleratorKeyEventArgs),
      TranslateVirtualKey c args.VirtualKey = 0 →
      (HandleAcceleratorKey c now s args).1.m_lastButton = s.m_lastButton ∧
      (HandleAcceleratorKey c now s args).1.m_button = s.m_button ∧
      Update (HandleAcceleratorKey c now s args).1 = Update s ∧
      GetButton (Update (HandleAcceleratorKey c now s args).1) = GetButton (Update s)) ∧
    (∀ (button : SystemMediaTransportControlsButton),
      TranslateMediaKey c button = 0 →
      (HandleMediaButton c s button).m_lastButton = s.m_lastButton ∧
      (HandleMediaButton c s button).m_button = s.m_button ∧
      Update (HandleMediaButton c s button) = Update s ∧
      GetButton (Update (HandleMediaButton c s button)) = GetButton (Update s)) ∧
    (∀ (button : SystemMediaTransportControlsButton), TranslateMediaKey c button ≠ 0) := by
  refine ⟨?_, ?_, ?_⟩
  · intro now args hk
    have h1 : HandleAcceleratorKey c now s args = (s, args) := by
      unfold HandleAcceleratorKey
      simp [hk]
    rw [h1]
    exact ⟨rfl, rfl, rfl, rfl⟩
  · intro button hb
    exact absurd hb (TranslateMediaKey_ne_zero c hmedia button)
  · exact TranslateMediaKey_ne_zero c hmedia

/-- C11, at a concrete input: a key-down of `GamepadA` leaves its code 11
pending; a key-down of the unmapped key with code 27 (Escape) follows; the
pending button is still 11 and `GetButton()` returns 11 after `Update()`. -/
theorem unmapped_input_dropped_witness :
    (HandleAcceleratorKey sampleCodes 1000 new
      ⟨XBOX_REMOTE_DEVICE_ID, .GamepadA, .KeyDown, false⟩).1.m_lastButton = 11 ∧
    (HandleAcceleratorKey sampleCodes 1100
      (HandleAcceleratorKey sampleCodes 1000 new
        ⟨XBOX_REMOTE_DEVICE_ID, .GamepadA, .KeyDown, false⟩).1
      ⟨XBOX_REMOTE_DEVICE_ID, .Other 27, .KeyDown, false⟩).1.m_lastButton = 11 ∧
    GetButton (Update (HandleAcceleratorKey sampleCodes 1100
      (HandleAcceleratorKey sampleCodes 1000 new
        ⟨XBOX_REMOTE_DEVICE_ID, .GamepadA, .KeyDown, false⟩).1
      ⟨XBOX_REMOTE_DEVICE_ID, .Other 27, .KeyDown, false⟩).1) = 11 :=
  have h := (unmapped_input_dropped sampleCodes (by unfold MediaCodesNonZero; decide)
    (HandleAcceleratorKey sampleCodes 1000 new
      ⟨XBOX_REMOTE_DEVICE_ID, .GamepadA, .KeyDown, false⟩).1).1 1100
    ⟨XBOX_REMOTE_DEVICE_ID, .Other 27, .KeyDown, false⟩ (by decide)
  ⟨by decide, h.1.trans (by decide), h.2.2.2.trans (by decide)⟩

end RemoteControlXbox
